import Mathlib

/-!
Shallow embedding of the y4j-input-app single-file Streamlit application
(src/app.py) and verification of its specified properties.

The file models, in order:
  * the OAuth credential bundle and the operator-provisioned ("admin")
    credential construction and refresh (app.py lines 80-118);
  * the Drive upload helper with its catch-all error handling
    (app.py lines 120-144);
  * the redirect-callback login block operating on the Streamlit
    session state (app.py lines 28-58);
  * artifact derivation and the submission block (app.py lines 178-195).

External collaborators (the Google token endpoint, the Drive create-file
call) are passed in as explicit function-valued environments; Streamlit
side effects (st.error, st.success, st.balloons, uploads) are reified as
effect lists so that what the UI observes is a value the theorems can
speak about.
-/

namespace Y4J

/-- Byte sequences (python bytes objects) are modelled as lists of
naturals. -/
abbrev ByteSeq : Type := List Nat

/-- Character-level encoding standing for python str.encode with utf-8.
Every string literal occurring in the application is ASCII, where the
code-point sequence and the UTF-8 byte sequence coincide. -/
def encodeUtf8 (s : String) : ByteSeq := s.data.map Char.toNat

/-- Credential bundle as constructed by google.oauth2.credentials.Credentials
in get_admin_creds and get_gdrive_service (app.py lines 85-91 and 106-112):
an optional access token, a refresh token, the token endpoint uri, and the
client id and secret.  The expiry field carries the access-token expiry
time when one is known, matching the google-auth expiry attribute. -/
structure Credentials where
  token : Option String
  refreshToken : String
  tokenUri : String
  clientId : String
  clientSecret : String
  expiry : Option Nat
  deriving Repr, DecidableEq

/-- The google-auth expired test: an expiry is recorded and has passed. -/
def Credentials.expired (c : Credentials) (now : Nat) : Bool :=
  match c.expiry with
  | none => false
  | some e => decide (e ≤ now)

/-- The google-auth valid test used at app.py lines 93 and 115: a token is
present and it is not expired. -/
def Credentials.valid (c : Credentials) (now : Nat) : Bool :=
  c.token.isSome && ! c.expired now

/-- The secrets stored under the google_auth section of the Streamlit
secrets (app.py lines 83 and 104): the operator-provisioned refresh token
and the client id and secret of the production storage account. -/
structure GoogleAuthSecrets where
  refreshToken : String
  clientId : String
  clientSecret : String
  deriving Repr, DecidableEq

/-- The Credentials value built at app.py lines 85-91 (identically at
lines 106-112): token None, the refresh token, token uri, client id and
client secret from the google_auth secrets, and hence no expiry. -/
def initialAdminCreds (auth : GoogleAuthSecrets) : Credentials :=
  { token := none
    refreshToken := auth.refreshToken
    tokenUri := "https://oauth2.googleapis.com/token"
    clientId := auth.clientId
    clientSecret := auth.clientSecret
    expiry := none }

/-- File metadata passed to the Drive create call (app.py lines 124-127). -/
structure FileMetadata where
  name : String
  parents : List String
  deriving Repr, DecidableEq

/-- MediaIoBaseUpload value (app.py lines 129-133): the raw bytes, the
mime type, and the resumable flag. -/
structure Media where
  content : ByteSeq
  mimetype : String
  resumable : Bool
  deriving Repr, DecidableEq

/-- The external Google endpoints the upload path calls into.  refresh is
the token-endpoint exchange performed by creds.refresh(Request());
createFile is service.files().create(...).execute(), taking the
credentials the service was built with, the metadata and the media body,
and returning the provider-assigned object id.  Either call can fail,
modelling a raised exception by an error value. -/
structure DriveEnv where
  refresh : Credentials → Except String Credentials
  createFile : Credentials → FileMetadata → Media → Except String String

/-- The fixed destination folder (app.py line 74). -/
def FOLDER_ID : String := "1_XXSyakCqZdKq72LFTd2g7iqH0enpt9L"

/-- get_admin_creds (app.py lines 80-96): build the bundle from the
google_auth secrets with token None, then refresh it whenever it is not
valid, and return the (possibly refreshed) bundle.  A failing refresh
propagates as an error, modelling the uncaught exception. -/
def get_admin_creds (now : Nat) (env : DriveEnv) (auth : GoogleAuthSecrets) :
    Except String Credentials :=
  let creds := initialAdminCreds auth
  if creds.valid now then Except.ok creds else env.refresh creds

/-- get_gdrive_service (app.py lines 101-118): same credential
construction and refresh as get_admin_creds, then build('drive', 'v3',
credentials=creds).  The returned service object is modelled by the
credentials it wraps, which is all the later create call consumes. -/
def get_gdrive_service (now : Nat) (env : DriveEnv) (auth : GoogleAuthSecrets) :
    Except String Credentials :=
  let creds := initialAdminCreds auth
  if creds.valid now then Except.ok creds else env.refresh creds

/-- upload_to_drive (app.py lines 120-144).  The whole body sits in a
try/except: building the service (which refreshes the admin credentials),
constructing metadata and media, and executing the create call.  On
success the provider id is returned; on any exception the handler shows
an Upload failed message via st.error and returns None.  The result is
the returned value paired with the list of error messages shown. -/
def upload_to_drive (now : Nat) (env : DriveEnv) (auth : GoogleAuthSecrets)
    (file_name : String) (file_content : ByteSeq) (mime_type : String) :
    Option String × List String :=
  match get_gdrive_service now env auth with
  | Except.error e => (none, ["Upload failed: " ++ e])
  | Except.ok service =>
    match env.createFile service ⟨file_name, [FOLDER_ID]⟩
        ⟨file_content, mime_type, true⟩ with
    | Except.ok id => (some id, [])
    | Except.error e => (none, ["Upload failed: " ++ e])

/-- The opaque per-user token bundle obtained from flow.credentials at
app.py line 37.  Its internal structure is irrelevant to the session
logic; only its presence in the session state matters. -/
structure UserCredentials where
  token : String
  deriving Repr, DecidableEq

/-- The Streamlit session state entries written by the redirect-callback
block (app.py lines 40-42): google_auth_code, credentials, user_email.
A fresh session has none of them. -/
structure SessionState where
  googleAuthCode : Option String
  credentials : Option UserCredentials
  userEmail : Option String
  deriving Repr, DecidableEq

/-- Session state at session start: st.session_state holds no keys. -/
def initialSession : SessionState := ⟨none, none, none⟩

/-- The authentication states of the session machine. -/
inductive AuthState
  | ANONYMOUS
  | AUTHENTICATED
  deriving Repr, DecidableEq

/-- The state test the UI branch performs at app.py line 51: the session
is authenticated exactly when credentials is a stored key of the session
state. -/
def sessionAuthState (s : SessionState) : AuthState :=
  if s.credentials.isSome then AuthState.AUTHENTICATED else AuthState.ANONYMOUS

/-- The state the redirect-callback block operates on: the code query
parameter (st.query_params) and the session state. -/
structure RedirectState where
  queryCode : Option String
  session : SessionState
  deriving Repr, DecidableEq

/-- Observable outcome of one run of the redirect-callback block: the
resulting state, the error messages shown via st.error, and the number of
token-endpoint exchange requests performed by flow.fetch_token. -/
structure RedirectOutcome where
  state : RedirectState
  errors : List String
  exchanges : Nat
  deriving DecidableEq

/-- The redirect-callback block (app.py lines 28-48).  If a code query
parameter is present, the code is exchanged via flow.fetch_token; on
success the session state stores the code, the credentials and the
user_email placeholder, and the query parameters are cleared; on an
exchange failure a Login failed message is shown and, the clear being
skipped by the exception, the state is left untouched.  With no code
present the block does nothing.  fetchToken is the token-endpoint
exchange. -/
def handle_redirect (fetchToken : String → Except String UserCredentials)
    (s : RedirectState) : RedirectOutcome :=
  match s.queryCode with
  | none => ⟨s, [], 0⟩
  | some code =>
    match fetchToken code with
    | Except.ok credentials =>
        ⟨⟨none, ⟨some code, some credentials, some "Logged In"⟩⟩, [], 1⟩
    | Except.error e => ⟨s, ["Login failed: " ++ e], 1⟩

/-- Modelled from the spec: logout is performed by st.logout() (app.py
line 160), a Streamlit builtin whose body is not part of this repository.
The spec says logout discards all session state, returning to ANONYMOUS. -/
def logout (_ : SessionState) : SessionState := initialSession

/-- Calendar date as held by st.date_input (app.py line 168). -/
structure Date where
  year : Nat
  month : Nat
  day : Nat
  deriving Repr, DecidableEq

def pad2 (n : Nat) : String := if n < 10 then "0" ++ toString n else toString n

def pad4 (n : Nat) : String :=
  if n < 10 then "000" ++ toString n
  else if n < 100 then "00" ++ toString n
  else if n < 1000 then "0" ++ toString n
  else toString n

/-- Rendering of a python datetime.date inside an f-string: the ISO
yyyy-mm-dd form. -/
def isoDate (d : Date) : String :=
  pad4 d.year ++ "-" ++ pad2 d.month ++ "-" ++ pad2 d.day

/-- An uploaded file as delivered by st.file_uploader (app.py line 172):
original name, raw bytes, and the caller-provided mime type. -/
structure UploadedFile where
  name : String
  content : ByteSeq
  mime : String
  deriving Repr, DecidableEq

/-- The form values handed to the submission logic (app.py lines
164-175): title, category, document date, details text, the optional
uploaded file and the optional camera capture. -/
structure SubmissionForm where
  info_title : String
  category : String
  entry_date : Date
  details : String
  uploaded_file : Option UploadedFile
  camera_photo : Option ByteSeq
  deriving Repr, DecidableEq

/-- An upload artifact: target filename, raw bytes and mime type, the
three arguments every upload_to_drive call receives. -/
structure Artifact where
  filename : String
  content : ByteSeq
  mime : String
  deriving Repr, DecidableEq

/-- Filename of the notes artifact (app.py line 184). -/
def notesFilename (f : SubmissionForm) : String :=
  isoDate f.entry_date ++ "_" ++ f.category ++ "_" ++ f.info_title ++ "_notes.txt"

/-- The notes artifact uploaded at app.py line 185: the details text
encoded as utf-8, mime text/plain. -/
def notesArtifact (f : SubmissionForm) : Artifact :=
  ⟨notesFilename f, encodeUtf8 f.details, "text/plain"⟩

/-- The file artifact uploaded at app.py line 189 when a file was
attached: original name, raw bytes, caller-provided mime type. -/
def fileArtifact (f : SubmissionForm) : Option Artifact :=
  f.uploaded_file.map (fun uf => ⟨uf.name, uf.content, uf.mime⟩)

/-- Filename of the photo artifact (app.py line 191). -/
def photoFilename (f : SubmissionForm) : String :=
  isoDate f.entry_date ++ "_" ++ f.info_title ++ "_photo.jpg"

/-- The photo artifact uploaded at app.py line 192 when a camera capture
was provided: the capture bytes under the derived name, mime fixed to
image/jpeg. -/
def photoArtifact (f : SubmissionForm) : Option Artifact :=
  f.camera_photo.map (fun b => ⟨photoFilename f, b, "image/jpeg"⟩)

/-- The artifacts the submit block uploads, in its execution order
notes, then file, then photo (app.py lines 183-192). -/
def deriveArtifacts (f : SubmissionForm) : List Artifact :=
  notesArtifact f :: ((fileArtifact f).toList ++ (photoArtifact f).toList)

/-- One observable UI effect of the submit block: a st.error message, an
upload attempt (with the value upload_to_drive returned and the error
messages it showed), the st.success message, or st.balloons. -/
inductive SubmitEffect
  | error (msg : String)
  | upload (a : Artifact) (result : Option String) (errors : List String)
  | success (msg : String)
  | balloons
  deriving DecidableEq

/-- The submission block (app.py lines 178-195).  An empty title is
rejected with an error before anything else happens.  Otherwise each
derived artifact is passed to upload_to_drive in order; since
upload_to_drive never raises, every artifact is attempted regardless of
earlier failures, and the block unconditionally ends with the success
message and balloons. -/
def submit_block (now : Nat) (env : DriveEnv) (auth : GoogleAuthSecrets)
    (f : SubmissionForm) : List SubmitEffect :=
  if f.info_title = "" then
    [SubmitEffect.error "Error: Please provide a title."]
  else
    ((deriveArtifacts f).map (fun a =>
      let r := upload_to_drive now env auth a.filename a.content a.mime
      SubmitEffect.upload a r.1 r.2))
    ++ [SubmitEffect.success
          ("Successfully uploaded \x27" ++ f.info_title ++ "\x27 records!"),
        SubmitEffect.balloons]

/-- The whole application state visible to one script run: the secrets
and everything that depends on which user is logged in — the Streamlit
identity (st.user) and the per-user login session state. -/
structure FullState where
  googleAuthSecrets : GoogleAuthSecrets
  userLoggedIn : Bool
  userEmail : String
  loginSession : SessionState
  deriving Repr, DecidableEq

/-- The upload path as invoked from the running app: upload_to_drive
reads only the google_auth secrets out of the full state. -/
def app_upload (now : Nat) (env : DriveEnv) (s : FullState)
    (file_name : String) (file_content : ByteSeq) (mime_type : String) :
    Option String × List String :=
  upload_to_drive now env s.googleAuthSecrets file_name file_content mime_type

/-- The submit block as invoked from the running app. -/
def app_submit (now : Nat) (env : DriveEnv) (s : FullState)
    (f : SubmissionForm) : List SubmitEffect :=
  submit_block now env s.googleAuthSecrets f

/-- Concrete google_auth secrets used by the concrete evaluations. -/
def sampleAuth : GoogleAuthSecrets := ⟨"rt", "cid", "cs"⟩

/-- Concrete external environment: the token endpoint answers every
refresh with a fresh token expiring at 1000, and the Drive create call
rejects exactly the file named report.pdf (a quota failure) while
accepting everything else. -/
def sampleEnv : DriveEnv :=
  ⟨fun c => Except.ok
      ⟨some "fresh-token", c.refreshToken, c.tokenUri, c.clientId,
       c.clientSecret, some 1000⟩,
   fun _ md _ =>
      if md.name = "report.pdf" then Except.error "quotaExceeded"
      else Except.ok "drive-id-1"⟩

/-- Concrete submission: the worked example of the spec with the
report.pdf attachment and no camera capture. -/
def sampleForm : SubmissionForm :=
  ⟨"Budget Q1", "Finance", ⟨2024, 1, 15⟩, "initial draft",
   some ⟨"report.pdf", [37, 80, 68, 70], "application/pdf"⟩, none⟩

/-- Authentication in the UI branch is by definition the presence of the
credentials key, so the two observations agree on every session state. -/
theorem sessionAuthState_authenticated_iff (s : SessionState) :
    sessionAuthState s = AuthState.AUTHENTICATED ↔ s.credentials.isSome = true := by
  unfold sessionAuthState
  by_cases h : s.credentials.isSome = true
  · simp [h]
  · simp [h]

/-- C3: credentials are present exactly when the session state is
AUTHENTICATED; the invariant holds in the initial session (ANONYMOUS with
no credentials) and after every operation, in particular after any run of
the redirect-callback block and after logout. -/
theorem credentials_iff_authenticated :
    (initialSession.credentials = none
      ∧ sessionAuthState initialSession = AuthState.ANONYMOUS)
    ∧ (∀ s : SessionState,
        (s.credentials.isSome = true ↔ sessionAuthState s = AuthState.AUTHENTICATED))
    ∧ (∀ (fetchToken : String → Except String UserCredentials) (s : RedirectState),
        ((handle_redirect fetchToken s).state.session.credentials.isSome = true
          ↔ sessionAuthState (handle_redirect fetchToken s).state.session
              = AuthState.AUTHENTICATED))
    ∧ (∀ s : SessionState,
        ((logout s).credentials.isSome = true
          ↔ sessionAuthState (logout s) = AuthState.AUTHENTICATED)) := by
  refine ⟨⟨rfl, rfl⟩, ?_, ?_, ?_⟩
  · intro s
    exact (sessionAuthState_authenticated_iff s).symm
  · intro fetchToken s
    exact (sessionAuthState_authenticated_iff _).symm
  · intro s
    exact (sessionAuthState_authenticated_iff _).symm

/-- Closed instance of credentials_iff_authenticated: a session holding
credentials evaluates as AUTHENTICATED. -/
theorem credentials_iff_authenticated_witness :
    sessionAuthState ⟨none, some ⟨"tok"⟩, some "Logged In"⟩ = AuthState.AUTHENTICATED :=
  (credentials_iff_authenticated.2.1 ⟨none, some ⟨"tok"⟩, some "Logged In"⟩).mp rfl

/-- C5: a submission with an empty title is rejected with the validation
error, and no upload is attempted at all (the block's whole output is the
single error message). -/
theorem empty_title_rejected (now : Nat) (env : DriveEnv)
    (auth : GoogleAuthSecrets) (f : SubmissionForm) (h : f.info_title = "") :
    submit_block now env auth f = [SubmitEffect.error "Error: Please provide a title."]
    ∧ ∀ (a : Artifact) (r : Option String) (e : List String),
        SubmitEffect.upload a r e ∉ submit_block now env auth f := by
  constructor
  · simp [submit_block, h]
  · intro a r e
    simp [submit_block, h]

/-- Closed instance of empty_title_rejected at a concrete request. -/
theorem empty_title_rejected_witness :
    submit_block 0 sampleEnv sampleAuth ⟨"", "Finance", ⟨2024, 1, 15⟩, "", none, none⟩
      = [SubmitEffect.error "Error: Please provide a title."] :=
  (empty_title_rejected 0 sampleEnv sampleAuth
    ⟨"", "Finance", ⟨2024, 1, 15⟩, "", none, none⟩ rfl).1

/-- C6: on the worked example (title Budget Q1, category Finance, date
2024-01-15, details initial draft, no file, no photo) exactly one
artifact is derived, the notes file 2024-01-15_Finance_Budget Q1_notes.txt
with the details as utf-8 text and mime text/plain; and in general the
notes artifact heads the artifact list of every request, named
date_category_title_notes.txt with the encoded details as content. -/
theorem notes_artifact_derivation :
    deriveArtifacts ⟨"Budget Q1", "Finance", ⟨2024, 1, 15⟩, "initial draft", none, none⟩
      = [⟨"2024-01-15_Finance_Budget Q1_notes.txt", encodeUtf8 "initial draft", "text/plain"⟩]
    ∧ ∀ f : SubmissionForm, ∃ rest : List Artifact,
        deriveArtifacts f
          = ⟨isoDate f.entry_date ++ "_" ++ f.category ++ "_" ++ f.info_title ++ "_notes.txt",
             encodeUtf8 f.details, "text/plain"⟩ :: rest := by
  constructor
  · decide
  · intro f
    exact ⟨(fileArtifact f).toList ++ (photoArtifact f).toList, rfl⟩

/-- C7: a photo artifact is derived exactly when a camera capture is
present; when present it is named date_title_photo.jpg, carries the
capture bytes, has mime image/jpeg, and is among the uploaded artifacts. -/
theorem photo_artifact_derivation :
    ∀ f : SubmissionForm,
      ((photoArtifact f).isSome = f.camera_photo.isSome)
      ∧ (∀ b : ByteSeq, f.camera_photo = some b →
          photoArtifact f
            = some ⟨isoDate f.entry_date ++ "_" ++ f.info_title ++ "_photo.jpg", b, "image/jpeg"⟩
          ∧ (⟨isoDate f.entry_date ++ "_" ++ f.info_title ++ "_photo.jpg", b, "image/jpeg"⟩ : Artifact)
              ∈ deriveArtifacts f)
      ∧ (f.camera_photo = none → photoArtifact f = none) := by
  intro f
  refine ⟨?_, ?_, ?_⟩
  · cases h : f.camera_photo <;> simp [photoArtifact, h]
  · intro b hb
    constructor
    · simp [photoArtifact, photoFilename, hb]
    · simp [deriveArtifacts, photoArtifact, photoFilename, hb]
  · intro h
    simp [photoArtifact, h]

/-- Closed instance of photo_artifact_derivation: a request with a camera
capture yields the jpeg artifact under the derived name. -/
theorem photo_artifact_derivation_witness :
    photoArtifact ⟨"T", "Research", ⟨2024, 1, 15⟩, "", none, some [7, 8]⟩
      = some ⟨"2024-01-15_T_photo.jpg", [7, 8], "image/jpeg"⟩ := by
  have h := ((photo_artifact_derivation
      ⟨"T", "Research", ⟨2024, 1, 15⟩, "", none, some [7, 8]⟩).2.1 [7, 8] rfl).1
  exact h.trans (by decide)

/-- C10: upload_to_drive is a total function of its inputs: when credential
refresh and the create call succeed it returns the provider-assigned id
with no error shown, and when either step fails it returns none after
showing the Upload failed message — every failure is caught, so no
exception reaches the caller and outcomes are distinguishable only through
the returned value. -/
theorem upload_to_drive_never_throws :
    ∀ (now : Nat) (env : DriveEnv) (auth : GoogleAuthSecrets)
      (file_name : String) (file_content : ByteSeq) (mime_type : String),
      (∃ e, get_gdrive_service now env auth = Except.error e
          ∧ upload_to_drive now env auth file_name file_content mime_type
              = (none, ["Upload failed: " ++ e]))
      ∨ (∃ creds, get_gdrive_service now env auth = Except.ok creds
          ∧ ((∃ id, env.createFile creds ⟨file_name, [FOLDER_ID]⟩
                  ⟨file_content, mime_type, true⟩ = Except.ok id
                ∧ upload_to_drive now env auth file_name file_content mime_type
                    = (some id, []))
            ∨ (∃ e, env.createFile creds ⟨file_name, [FOLDER_ID]⟩
                  ⟨file_content, mime_type, true⟩ = Except.error e
                ∧ upload_to_drive now env auth file_name file_content mime_type
                    = (none, ["Upload failed: " ++ e])))) := by
  intro now env auth file_name file_content mime_type
  cases hg : get_gdrive_service now env auth with
  | error e =>
      exact Or.inl ⟨e, rfl, by simp [upload_to_drive, hg]⟩
  | ok creds =>
      refine Or.inr ⟨creds, rfl, ?_⟩
      cases hc : env.createFile creds ⟨file_name, [FOLDER_ID]⟩
          ⟨file_content, mime_type, true⟩ with
      | ok id =>
          exact Or.inl ⟨id, rfl, by simp [upload_to_drive, hg, hc]⟩
      | error e =>
          exact Or.inr ⟨e, rfl, by simp [upload_to_drive, hg, hc]⟩

/-- C4: the admin bundle is built with no access token, hence is never
valid at construction, so a token-endpoint refresh of the stored refresh
token always happens before the bundle is returned; and whenever the
provider's refresh responses carry a fresh unexpired token, any bundle
get_admin_creds returns is valid now — its access token is present and
not expired. -/
theorem valid_credentials_never_expired :
    (∀ (now : Nat) (env : DriveEnv) (auth : GoogleAuthSecrets),
        (initialAdminCreds auth).valid now = false
        ∧ (initialAdminCreds auth).refreshToken = auth.refreshToken
        ∧ get_admin_creds now env auth = env.refresh (initialAdminCreds auth))
    ∧ (∀ (now : Nat) (env : DriveEnv) (auth : GoogleAuthSecrets) (c : Credentials),
        (∀ c₀ c₁, env.refresh c₀ = Except.ok c₁ → c₁.valid now = true) →
        get_admin_creds now env auth = Except.ok c →
        c.valid now = true ∧ c.expired now = false ∧ c.token.isSome = true) := by
  constructor
  · intro now env auth
    exact ⟨rfl, rfl, rfl⟩
  · intro now env auth c hfresh hget
    have hv : c.valid now = true := by
      apply hfresh (initialAdminCreds auth) c
      exact hget
    refine ⟨hv, ?_, ?_⟩
    · have h := hv
      unfold Credentials.valid at h
      cases hevt : c.expired now
      · rfl
      · rw [hevt] at h
        simp at h
    · have h := hv
      unfold Credentials.valid at h
      cases ht : c.token.isSome
      · rw [ht] at h
        simp at h
      · rfl

/-- Closed instance of valid_credentials_never_expired: with the sample
endpoint the returned bundle carries the fresh token and is valid. -/
theorem valid_credentials_never_expired_witness :
    get_admin_creds 0 sampleEnv sampleAuth
      = Except.ok ⟨some "fresh-token", "rt", "https://oauth2.googleapis.com/token",
          "cid", "cs", some 1000⟩
    ∧ Credentials.valid ⟨some "fresh-token", "rt",
        "https://oauth2.googleapis.com/token", "cid", "cs", some 1000⟩ 0 = true := by
  have h := valid_credentials_never_expired.2 0 sampleEnv sampleAuth
      ⟨some "fresh-token", "rt", "https://oauth2.googleapis.com/token",
       "cid", "cs", some 1000⟩
      (by
        intro c₀ c₁ hc
        cases hc
        rfl)
      rfl
  exact ⟨rfl, h.1⟩

/-- C9: the upload path reads nothing user-dependent: two full states
agreeing on the google_auth secrets but differing arbitrarily in the
logged-in identity and the per-user login session produce identical
upload and submit behaviour; the credentials the service is built from
are exactly the refreshed operator bundle derived from the google_auth
secrets (never the login session's credentials); and a successful upload
is a create call on those refreshed credentials against the fixed
FOLDER_ID parent. -/
theorem upload_noninterference :
    (∀ (now : Nat) (env : DriveEnv) (s₁ s₂ : FullState)
        (file_name : String) (file_content : ByteSeq) (mime_type : String),
        s₁.googleAuthSecrets = s₂.googleAuthSecrets →
        app_upload now env s₁ file_name file_content mime_type
          = app_upload now env s₂ file_name file_content mime_type)
    ∧ (∀ (now : Nat) (env : DriveEnv) (s₁ s₂ : FullState) (f : SubmissionForm),
        s₁.googleAuthSecrets = s₂.googleAuthSecrets →
        app_submit now env s₁ f = app_submit now env s₂ f)
    ∧ (∀ (now : Nat) (env : DriveEnv) (s : FullState),
        get_gdrive_service now env s.googleAuthSecrets
          = env.refresh (initialAdminCreds s.googleAuthSecrets))
    ∧ (∀ (now : Nat) (env : DriveEnv) (s : FullState)
        (file_name : String) (file_content : ByteSeq) (mime_type : String)
        (id : String),
        (app_upload now env s file_name file_content mime_type).1 = some id →
        ∃ creds, env.refresh (initialAdminCreds s.googleAuthSecrets) = Except.ok creds
          ∧ env.createFile creds ⟨file_name, [FOLDER_ID]⟩
              ⟨file_content, mime_type, true⟩ = Except.ok id) := by
  refine ⟨?_, ?_, ?_, ?_⟩
  · intro now env s₁ s₂ file_name file_content mime_type h
    unfold app_upload
    rw [h]
  · intro now env s₁ s₂ f h
    unfold app_submit
    rw [h]
  · intro now env s
    rfl
  · intro now env s file_name file_content mime_type id h
    unfold app_upload upload_to_drive at h
    cases hg : get_gdrive_service now env s.googleAuthSecrets with
    | error e =>
        simp [hg] at h
    | ok creds =>
        simp only [hg] at h
        have hrefresh : env.refresh (initialAdminCreds s.googleAuthSecrets)
            = Except.ok creds := hg
        refine ⟨creds, hrefresh, ?_⟩
        cases hc : env.createFile creds ⟨file_name, [FOLDER_ID]⟩
            ⟨file_content, mime_type, true⟩ with
        | ok id₀ =>
            simp only [hc] at h
            have hid : id₀ = id := by
              simpa using h
            exact congrArg Except.ok hid
        | error e =>
            simp only [hc] at h
            simp at h

/-- Closed instance of upload_noninterference: an authenticated session
and a fresh anonymous one with the same secrets upload identically. -/
theorem upload_noninterference_witness :
    app_upload 0 sampleEnv
        ⟨sampleAuth, true, "volunteer", ⟨some "c", some ⟨"t1"⟩, some "Logged In"⟩⟩
        "a.txt" [1] "text/plain"
      = app_upload 0 sampleEnv ⟨sampleAuth, false, "", initialSession⟩
          "a.txt" [1] "text/plain" :=
  upload_noninterference.1 0 sampleEnv
    ⟨sampleAuth, true, "volunteer", ⟨some "c", some ⟨"t1"⟩, some "Logged In"⟩⟩
    ⟨sampleAuth, false, "", initialSession⟩ "a.txt" [1] "text/plain" rfl

/-- C8: when the code exchange fails, the redirect block leaves the whole
state untouched — an anonymous session stays anonymous with no
credentials — shows the Login failed message carrying the provider's
message, and performs exactly one exchange attempt (no retry). -/
theorem exchange_failure_keeps_anonymous :
    ∀ (fetchToken : String → Except String UserCredentials) (s : RedirectState)
      (code err : String),
      s.queryCode = some code →
      fetchToken code = Except.error err →
      sessionAuthState s.session = AuthState.ANONYMOUS →
      (handle_redirect fetchToken s).state = s
      ∧ (handle_redirect fetchToken s).state.session.credentials = none
      ∧ sessionAuthState (handle_redirect fetchToken s).state.session = AuthState.ANONYMOUS
      ∧ (handle_redirect fetchToken s).errors = ["Login failed: " ++ err]
      ∧ (handle_redirect fetchToken s).exchanges = 1 := by
  intro fetchToken s code err hq hf hanon
  have hrun : handle_redirect fetchToken s = ⟨s, ["Login failed: " ++ err], 1⟩ := by
    simp [handle_redirect, hq, hf]
  have hnone : s.session.credentials = none := by
    cases hcred : s.session.credentials with
    | none => rfl
    | some c =>
        have : sessionAuthState s.session = AuthState.AUTHENTICATED := by
          apply (sessionAuthState_authenticated_iff s.session).mpr
          rw [hcred]
          rfl
        rw [hanon] at this
        cases this
  rw [hrun]
  exact ⟨rfl, hnone, hanon, rfl, rfl⟩

/-- Closed instance of exchange_failure_keeps_anonymous: a rejected code
leaves the fresh session untouched and shows the provider's message. -/
theorem exchange_failure_keeps_anonymous_witness :
    (handle_redirect (fun _ => Except.error "invalid_grant")
        ⟨some "badcode", initialSession⟩).state = ⟨some "badcode", initialSession⟩
    ∧ (handle_redirect (fun _ => Except.error "invalid_grant")
        ⟨some "badcode", initialSession⟩).errors = ["Login failed: invalid_grant"]
    ∧ (handle_redirect (fun _ => Except.error "invalid_grant")
        ⟨some "badcode", initialSession⟩).exchanges = 1 := by
  have h := exchange_failure_keeps_anonymous (fun _ => Except.error "invalid_grant")
      ⟨some "badcode", initialSession⟩ "badcode" "invalid_grant" rfl rfl rfl
  exact ⟨h.1, (h.2.2.2.1).trans (by decide), h.2.2.2.2⟩

/-- C2 counterexample: the redirect block has no AUTHENTICATED guard — it
tests only whether a code query parameter is present.  In a state whose
session is already AUTHENTICATED but whose query still carries the code
(back-navigation to the redirect URL), the block performs another
token-endpoint exchange and overwrites the session, instead of being a
no-op. -/
theorem handle_redirect_reexchanges_when_authenticated :
    sessionAuthState ⟨some "abc", some ⟨"tok1"⟩, some "Logged In"⟩
        = AuthState.AUTHENTICATED
    ∧ (handle_redirect (fun _ => Except.ok ⟨"tok2"⟩)
        ⟨some "abc", ⟨some "abc", some ⟨"tok1"⟩, some "Logged In"⟩⟩).exchanges = 1
    ∧ (handle_redirect (fun _ => Except.ok ⟨"tok2"⟩)
        ⟨some "abc", ⟨some "abc", some ⟨"tok1"⟩, some "Logged In"⟩⟩).state.session
        ≠ ⟨some "abc", some ⟨"tok1"⟩, some "Logged In"⟩ := by
  refine ⟨rfl, rfl, ?_⟩
  decide

/-- C2 amended: idempotence of the redirect handling holds through the
query parameters, not through an authenticated-state guard: a successful
exchange clears the code from the query, so running the block again on
the resulting state performs no further token-endpoint request, shows no
error and leaves the state unchanged. -/
theorem handle_redirect_idempotent_after_success :
    ∀ (fetchToken : String → Except String UserCredentials) (s : RedirectState)
      (code : String) (creds : UserCredentials),
      s.queryCode = some code →
      fetchToken code = Except.ok creds →
      (handle_redirect fetchToken s).state.queryCode = none
      ∧ handle_redirect fetchToken (handle_redirect fetchToken s).state
          = ⟨(handle_redirect fetchToken s).state, [], 0⟩ := by
  intro fetchToken s code creds hq hf
  have hrun : handle_redirect fetchToken s
      = ⟨⟨none, ⟨some code, some creds, some "Logged In"⟩⟩, [], 1⟩ := by
    simp [handle_redirect, hq, hf]
  rw [hrun]
  exact ⟨rfl, rfl⟩

/-- Closed instance of handle_redirect_idempotent_after_success: a second
run after a successful login is inert. -/
theorem handle_redirect_idempotent_witness :
    handle_redirect (fun _ => Except.ok ⟨"tok"⟩)
        (handle_redirect (fun _ => Except.ok ⟨"tok"⟩)
          ⟨some "abc", initialSession⟩).state
      = ⟨(handle_redirect (fun _ => Except.ok ⟨"tok"⟩)
          ⟨some "abc", initialSession⟩).state, [], 0⟩ :=
  (handle_redirect_idempotent_after_success (fun _ => Except.ok ⟨"tok"⟩)
    ⟨some "abc", initialSession⟩ "abc" ⟨"tok"⟩ rfl rfl).2

/-- C1 counterexample: on the worked request with the report.pdf
attachment, the notes upload succeeds and the file upload fails, yet the
block still ends with the unconditional success message — there is no
PARTIAL_FAILURE outcome, and the failure is visible only as the
per-upload error message. -/
theorem submit_success_despite_failure :
    submit_block 0 sampleEnv sampleAuth sampleForm
      = [SubmitEffect.upload
           ⟨"2024-01-15_Finance_Budget Q1_notes.txt", encodeUtf8 "initial draft", "text/plain"⟩
           (some "drive-id-1") [],
         SubmitEffect.upload
           ⟨"report.pdf", [37, 80, 68, 70], "application/pdf"⟩
           none ["Upload failed: quotaExceeded"],
         SubmitEffect.success "Successfully uploaded \x27Budget Q1\x27 records!",
         SubmitEffect.balloons] := by
  decide

/-- C1 amended: with a non-empty title every derived artifact is passed to
upload_to_drive regardless of how the other uploads fare (upload_to_drive
never raises), each failed upload contributes its Upload failed message,
and the block always ends by reporting the success message — the overall
outcome does not depend on the per-artifact results. -/
theorem submit_attempts_all_and_reports_success :
    ∀ (now : Nat) (env : DriveEnv) (auth : GoogleAuthSecrets) (f : SubmissionForm),
      f.info_title ≠ "" →
      (∀ a ∈ deriveArtifacts f,
          SubmitEffect.upload a
            (upload_to_drive now env auth a.filename a.content a.mime).1
            (upload_to_drive now env auth a.filename a.content a.mime).2
            ∈ submit_block now env auth f)
      ∧ SubmitEffect.success
            ("Successfully uploaded \x27" ++ f.info_title ++ "\x27 records!")
          ∈ submit_block now env auth f := by
  intro now env auth f h
  constructor
  · intro a ha
    unfold submit_block
    rw [if_neg h]
    apply List.mem_append_left
    exact List.mem_map_of_mem _ ha
  · unfold submit_block
    rw [if_neg h]
    apply List.mem_append_right
    exact List.mem_cons_self _ _

/-- Closed instance of submit_attempts_all_and_reports_success at the
worked request: the success message is always among the effects. -/
theorem submit_attempts_all_witness :
    SubmitEffect.success
        ("Successfully uploaded \x27" ++ sampleForm.info_title ++ "\x27 records!")
      ∈ submit_block 0 sampleEnv sampleAuth sampleForm :=
  (submit_attempts_all_and_reports_success 0 sampleEnv sampleAuth sampleForm
    (by decide)).2

end Y4J
